import Mathlib

/-!
Verification of the SAIV instructor dashboard (a Streamlit presentation layer)
against its natural-language specification.

The development shallowly embeds the relevant Python source:
* the session lifecycle guard of `src/pages/6_➕_Manage.py` (tab 4),
* the formatting utilities of `src/utils/formatters.py`,
* the response handler and login flow of `src/lib/api_client.py` and
  `src/app.py`, together with the hard-coded base URLs of the Manage and
  Reports pages.

Machine integers do not occur; Python numbers are embedded as `Nat`, `Int`
or `ℚ`, and Python's `None` as `Option`.
-/

/-- The four session statuses of the data model
(`scheduled`, `active`, `closed`, `cancelled`). -/
inductive SessionStatus where
  | scheduled
  | active
  | closed
  | cancelled
deriving DecidableEq, Repr

/-- The `valid_transitions` dictionary of `6_➕_Manage.py` (lines 695-700):
`scheduled -> [active, cancelled]`, `active -> [closed, cancelled]`,
`closed -> []`, `cancelled -> []`. -/
def valid_transitions (status : SessionStatus) : List SessionStatus :=
  match status with
  | .scheduled => [.active, .cancelled]
  | .active => [.closed, .cancelled]
  | .closed => []
  | .cancelled => []

/-- `allowed_next_states` of `6_➕_Manage.py` (lines 702-706): the base row of
`valid_transitions`, with `active` filtered out when the owning course is
not active. -/
def allowed_next_states (status : SessionStatus) (course_is_active : Bool) :
    List SessionStatus :=
  let base := valid_transitions status
  if !course_is_active && base.contains SessionStatus.active then
    base.filter (fun s => s != SessionStatus.active)
  else
    base

/-- `can_activate` of `6_➕_Manage.py` (line 711):
whether `active` is in the allowed next states. -/
def can_activate (status : SessionStatus) (course_is_active : Bool) : Bool :=
  (allowed_next_states status course_is_active).contains SessionStatus.active

/-- The Activate button's `disabled` flag (line 712): `disabled=not can_activate`. -/
def activate_button_disabled (status : SessionStatus) (course_is_active : Bool) : Bool :=
  !can_activate status course_is_active

/-- The PATCH request issued by the Activate handler (lines 712-717): a request
to `/admin/sessions/{id}/status` with body status `active` is issued only when
`can_activate` holds (the button is disabled otherwise, and the handler is
additionally guarded by `if can_activate`). -/
def activate_patch_request (status : SessionStatus) (course_is_active : Bool)
    (session_id : Nat) : Option (String × String) :=
  if can_activate status course_is_active then
    some ("/admin/sessions/" ++ toString session_id ++ "/status", "active")
  else
    none

/-- The deleted-course warning of `6_➕_Manage.py` (lines 684-685): shown
exactly when the owning course is not active. -/
def course_deleted_warning (course_is_active : Bool) : Bool :=
  !course_is_active

/-- The Danger Zone fragment of `6_➕_Manage.py` (lines 793-826): the delete
button is rendered for `scheduled`/`cancelled`, and the cannot-delete
explanation for `active`/`closed`. -/
structure DangerZoneView where
  deleteButton : Bool
  cannotDeleteMsg : Bool
deriving DecidableEq, Repr

/-- Rendering of the Danger Zone (lines 793-826):
`if status in ['scheduled', 'cancelled']` show the delete button,
`elif status in ['active', 'closed']` show the cannot-delete warning. -/
def danger_zone (status : SessionStatus) : DangerZoneView :=
  if status = SessionStatus.scheduled ∨ status = SessionStatus.cancelled then
    { deleteButton := true, cannotDeleteMsg := false }
  else if status = SessionStatus.active ∨ status = SessionStatus.closed then
    { deleteButton := false, cannotDeleteMsg := true }
  else
    { deleteButton := false, cannotDeleteMsg := false }

/-- The DELETE request of the Danger Zone (lines 798-810): issued to
`/sessions/{id}` only when the delete button is rendered (clicking it is
impossible otherwise). -/
def delete_session_click (status : SessionStatus) (session_id : Nat) : Option String :=
  if (danger_zone status).deleteButton then
    some ("/sessions/" ++ toString session_id)
  else
    none

/-- C1: for every `(currentStatus, courseIsActive)` pair, `allowed_next_states`
equals the fixed transition table (`scheduled -> [active, cancelled]`,
`active -> [closed, cancelled]`, `closed` and `cancelled` empty) with `active`
removed when the course is inactive; the sets for `closed` and `cancelled` are
empty for both flag values, and `scheduled` is never a member. -/
theorem allowed_next_states_table (st : SessionStatus) (b : Bool) :
    allowed_next_states SessionStatus.scheduled true
      = [SessionStatus.active, SessionStatus.cancelled]
    ∧ allowed_next_states SessionStatus.scheduled false = [SessionStatus.cancelled]
    ∧ allowed_next_states SessionStatus.active true
      = [SessionStatus.closed, SessionStatus.cancelled]
    ∧ allowed_next_states SessionStatus.active false
      = [SessionStatus.closed, SessionStatus.cancelled]
    ∧ allowed_next_states SessionStatus.closed b = []
    ∧ allowed_next_states SessionStatus.cancelled b = []
    ∧ SessionStatus.scheduled ∉ allowed_next_states st b := by
  cases st <;> cases b <;> decide

/-- C2: when a session is `scheduled` and its course is inactive, activation is
disallowed: `can_activate` is false, the Activate button is disabled, no PATCH
request to `/admin/sessions/{id}/status` is issued, and the deleted-course
warning is shown. -/
theorem scheduled_inactive_course_no_activate (session_id : Nat) :
    can_activate SessionStatus.scheduled false = false
    ∧ activate_button_disabled SessionStatus.scheduled false = true
    ∧ activate_patch_request SessionStatus.scheduled false session_id = none
    ∧ course_deleted_warning false = true := by
  refine ⟨by decide, by decide, ?_, by decide⟩
  have h : can_activate SessionStatus.scheduled false = false := by decide
  simp [activate_patch_request, h]

/-- C3: the delete-session action is offered iff the status is `scheduled` or
`cancelled`; for `active` and `closed` no DELETE request is issued and the
cannot-delete explanation is shown. -/
theorem delete_session_eligibility (st : SessionStatus) (session_id : Nat) :
    ((danger_zone st).deleteButton = true
      ↔ (st = SessionStatus.scheduled ∨ st = SessionStatus.cancelled))
    ∧ ((st = SessionStatus.active ∨ st = SessionStatus.closed) →
        delete_session_click st session_id = none
        ∧ (danger_zone st).cannotDeleteMsg = true) := by
  constructor
  · cases st <;> decide
  · intro h
    have hb : (danger_zone st).deleteButton = false := by
      rcases h with h | h <;> subst h <;> decide
    refine ⟨?_, ?_⟩
    · simp [delete_session_click, hb]
    · rcases h with h | h <;> subst h <;> decide

/-- Witness for C3 at `active`: no DELETE request is issued and the
cannot-delete message is shown. -/
theorem delete_session_eligibility_witness :
    delete_session_click SessionStatus.active 7 = none
    ∧ (danger_zone SessionStatus.active).cannotDeleteMsg = true :=
  (delete_session_eligibility SessionStatus.active 7).2 (Or.inl rfl)

/-!
## Formatting utilities (`src/utils/formatters.py`)

Python floats are embedded as `ℚ`; the float format specifiers `:.Nf` are
embedded as exact decimal rounding with ties to even (the rounding Python's
float formatting performs on the underlying value).
-/

/-- Python `int(v)`: truncation toward zero. -/
def ratTruncToInt (q : ℚ) : Int :=
  q.num / (q.den : Int)

/-- Floor of a rational, computed from its reduced fraction. -/
def ratFloor (q : ℚ) : Int :=
  Int.fdiv q.num (q.den : Int)

/-- Rounding to the nearest integer with ties to even, as Python's float
formatting does. -/
def roundHalfEven (q : ℚ) : Int :=
  let f := ratFloor q
  let frac := q - (f : ℚ)
  if frac < 1/2 then f
  else if 1/2 < frac then f + 1
  else if f % 2 = 0 then f else f + 1

/-- Left-pad a digit string with zeros to width `d`. -/
def padZeros (d : Nat) (s : String) : String :=
  String.mk (List.replicate (d - s.length) '0') ++ s

/-- Render of a `ℚ` under the Python format specifier `:.Nf`
(no decimal point when `decimals = 0`, mirroring `:.0f`). -/
def formatFixed (q : ℚ) (decimals : Nat) : String :=
  let scaled := roundHalfEven (q * (10 : ℚ) ^ decimals)
  let sign := if scaled < 0 then "-" else ""
  let m := scaled.natAbs
  if decimals = 0 then sign ++ toString m
  else
    sign ++ toString (m / 10 ^ decimals) ++ "."
      ++ padZeros decimals (toString (m % 10 ^ decimals))

/-- Group a reversed digit list into blocks of three separated by commas
(helper for Python's `:,` thousands separator). -/
def groupAux : List Char → List Char
  | [] => []
  | [a] => [a]
  | [a, b] => [a, b]
  | [a, b, c] => [a, b, c]
  | a :: b :: c :: rest => a :: b :: c :: ',' :: groupAux rest

/-- Python's `:,` thousands grouping of a natural number. -/
def groupThousandsNat (n : Nat) : String :=
  String.mk ((groupAux (toString n).data.reverse).reverse)

/-- `format_percentage` (lines 60-64): `"N/A"` for `None`, otherwise
`f"{value:.{decimals}f}%"`. -/
def format_percentage (value : Option ℚ) (decimals : Nat) : String :=
  match value with
  | none => "N/A"
  | some v => formatFixed v decimals ++ "%"

/-- `format_distance` (lines 66-81): `"N/A"` for `None`; metres below
1000 as `f"{meters:.0f}m"`, otherwise `f"{meters/1000:.2f}km"`. -/
def format_distance (meters : Option ℚ) : String :=
  match meters with
  | none => "N/A"
  | some m => if m < 1000 then formatFixed m 0 ++ "m" else formatFixed (m / 1000) 2 ++ "km"

/-- `format_risk_score` (lines 83-95): `"N/A"` for `None`, otherwise
`f"{score:.2f}"`. -/
def format_risk_score (score : Option ℚ) : String :=
  match score with
  | none => "N/A"
  | some s => formatFixed s 2

/-- `get_risk_color` (lines 97-114): `gray` for `None`, `green` below 0.3,
`orange` below 0.6, `red` otherwise. -/
def get_risk_color (score : Option ℚ) : String :=
  match score with
  | none => "gray"
  | some s => if s < 3/10 then "green" else if s < 6/10 then "orange" else "red"

/-- The label selected by `risk_badge` (lines 151-159): `LOW` below 0.3,
`MEDIUM` below 0.6, `HIGH` otherwise. -/
def risk_label (s : ℚ) : String :=
  if s < 3/10 then "LOW" else if s < 6/10 then "MEDIUM" else "HIGH"

/-- The CSS class selected by `risk_badge` (lines 151-159). -/
def risk_badge_class (s : ℚ) : String :=
  if s < 3/10 then "success-badge" else if s < 6/10 then "warning-badge" else "danger-badge"

/-- `risk_badge` (lines 138-161): the `info-badge` `N/A` span for `None`,
otherwise a span with the bucket's class, label and two-decimal score. -/
def risk_badge (score : Option ℚ) : String :=
  match score with
  | none => "<span class=\"info-badge\">N/A</span>"
  | some s =>
    "<span class=\"" ++ risk_badge_class s ++ "\">" ++ risk_label s
      ++ " (" ++ formatFixed s 2 ++ ")</span>"

/-- `format_duration` (lines 163-185): `"N/A"` for `None`; seconds, then
minutes/seconds, then hours/minutes, with Python's floor `//` and `%`. -/
def format_duration (seconds : Option Int) : String :=
  match seconds with
  | none => "N/A"
  | some s =>
    if s < 60 then toString s ++ "s"
    else if s < 3600 then
      toString (Int.fdiv s 60) ++ "m " ++ toString (Int.fmod s 60) ++ "s"
    else
      toString (Int.fdiv s 3600) ++ "h " ++ toString (Int.fdiv (Int.fmod s 3600) 60) ++ "m"

/-- `format_number` (lines 187-194): `"N/A"` for `None`; `f"{int(value):,}"`
when `decimals = 0`, otherwise `f"{value:,.{decimals}f}"`. -/
def format_number (value : Option ℚ) (decimals : Nat) : String :=
  match value with
  | none => "N/A"
  | some v =>
    if decimals = 0 then
      let i := ratTruncToInt v
      (if i < 0 then "-" else "") ++ groupThousandsNat i.natAbs
    else
      let scaled := roundHalfEven (v * (10 : ℚ) ^ decimals)
      (if scaled < 0 then "-" else "") ++ groupThousandsNat (scaled.natAbs / 10 ^ decimals)
        ++ "." ++ padZeros decimals (toString (scaled.natAbs % 10 ^ decimals))

/-- `format_boolean` (lines 228-232): `"N/A"` for `None`, otherwise the
`true_text`/`false_text` argument. -/
def format_boolean (value : Option Bool) (true_text false_text : String) : String :=
  match value with
  | none => "N/A"
  | some b => if b then true_text else false_text

/-!
### Datetime parsing and formatting

`datetime.fromisoformat` and `strftime` are Python standard library
functions, external to the repository; they are modelled below.
-/

/-- The calendar fields the dashboard's format strings use. -/
structure PyDateTime where
  year : Nat
  month : Nat
  day : Nat
  hour : Nat
  minute : Nat
  second : Nat
deriving DecidableEq, Repr

/-- Value of a decimal digit character. -/
def digitVal (c : Char) : Option Nat :=
  if c.isDigit then some (c.toNat - 48) else none

/-- An exactly-two-digit number. -/
def fixed2 : List Char → Option Nat
  | [a, b] =>
    match digitVal a, digitVal b with
    | some x, some y => some (x * 10 + y)
    | _, _ => none
  | _ => none

/-- An exactly-four-digit number. -/
def fixed4 : List Char → Option Nat
  | [a, b, c, d] =>
    match digitVal a, digitVal b, digitVal c, digitVal d with
    | some w, some x, some y, some z => some (((w * 10 + x) * 10 + y) * 10 + z)
    | _, _, _, _ => none
  | _ => none

/-- Split a character list on a separator character. -/
def splitOnChar (sep : Char) : List Char → List (List Char)
  | [] => [[]]
  | c :: rest =>
    let r := splitOnChar sep rest
    if c = sep then [] :: r
    else
      match r with
      | [] => [[c]]
      | h :: t => (c :: h) :: t

/-- Drop a trailing UTC-offset suffix (`+HH:MM` / `-HH:MM`) from a time
fragment; offsets are parsed leniently and discarded. -/
def stripOffset (l : List Char) : List Char :=
  let l2 := ((splitOnChar '+' l).headD l)
  (splitOnChar '-' l2).headD l2

/-- Parse `HH[:MM[:SS[.ffffff]]]`; fractional seconds are discarded. -/
def parseTimeChars (l : List Char) : Option (Nat × Nat × Nat) :=
  match splitOnChar ':' l with
  | [h] => do
    let hv ← fixed2 h
    if hv < 24 then some (hv, 0, 0) else none
  | [h, m] => do
    let hv ← fixed2 h
    let mv ← fixed2 m
    if hv < 24 ∧ mv < 60 then some (hv, mv, 0) else none
  | [h, m, s] => do
    let hv ← fixed2 h
    let mv ← fixed2 m
    let sv ← fixed2 ((splitOnChar '.' s).headD s)
    if hv < 24 ∧ mv < 60 ∧ sv < 60 then some (hv, mv, sv) else none
  | _ => none

/-- Models `datetime.fromisoformat` (Python standard library, external to the
repository): accepts `YYYY-MM-DD[<sep>HH[:MM[:SS[.ffffff]]][±HH:MM]]`; the
day-of-month check is simplified to `1..31` and offsets are discarded. -/
def parseISOChars (l : List Char) : Option PyDateTime :=
  match splitOnChar '-' (l.take 10) with
  | [ys, ms, ds] => do
    let y ← fixed4 ys
    let mo ← fixed2 ms
    let da ← fixed2 ds
    if 1 ≤ mo ∧ mo ≤ 12 ∧ 1 ≤ da ∧ da ≤ 31 then
      match l.drop 10 with
      | [] => some ⟨y, mo, da, 0, 0, 0⟩
      | _sep :: timeChars => do
        let t ← parseTimeChars (stripOffset timeChars)
        some ⟨y, mo, da, t.1, t.2.1, t.2.2⟩
    else none
  | _ => none

/-- String wrapper for the `fromisoformat` model. -/
def parseISO (s : String) : Option PyDateTime :=
  parseISOChars s.data

/-- The single-character replacement `dt_str.replace('Z', '+00:00')`
(line 23). -/
def replaceZChars : List Char → List Char
  | [] => []
  | c :: rest =>
    if c = 'Z' then '+' :: '0' :: '0' :: ':' :: '0' :: '0' :: replaceZChars rest
    else c :: replaceZChars rest

/-- `s.replace('Z', '+00:00')` on strings. -/
def replaceZ (s : String) : String :=
  String.mk (replaceZChars s.data)

/-- Expansion of one `strftime` directive character; the dashboard only uses
`%Y %m %d %H %M %S`. -/
def strftimeDirective (dt : PyDateTime) (c : Char) : String :=
  if c = 'Y' then padZeros 4 (toString dt.year)
  else if c = 'm' then padZeros 2 (toString dt.month)
  else if c = 'd' then padZeros 2 (toString dt.day)
  else if c = 'H' then padZeros 2 (toString dt.hour)
  else if c = 'M' then padZeros 2 (toString dt.minute)
  else if c = 'S' then padZeros 2 (toString dt.second)
  else if c = '%' then "%"
  else String.mk ['%', c]

/-- Models `strftime` (Python standard library) over the directives the
dashboard uses. -/
def strftimeChars (dt : PyDateTime) : List Char → String
  | [] => ""
  | '%' :: c :: rest => strftimeDirective dt c ++ strftimeChars dt rest
  | c :: rest => String.singleton c ++ strftimeChars dt rest

/-- String wrapper for the `strftime` model. -/
def strftime (dt : PyDateTime) (fmt : String) : String :=
  strftimeChars dt fmt.data

/-- `format_datetime` (lines 9-26): `"N/A"` for `None` or the empty string;
otherwise parse (after the `Z` replacement) and format, returning the input
unchanged when parsing raises. -/
def format_datetime (dt_str : Option String) (format : String) : String :=
  match dt_str with
  | none => "N/A"
  | some s =>
    if s = "" then "N/A"
    else
      match parseISO (replaceZ s) with
      | some dt => strftime dt format
      | none => s

/-- `format_date` (lines 28-30). -/
def format_date (dt_str : Option String) : String :=
  format_datetime dt_str "%Y-%m-%d"

/-- `format_time` (lines 32-34). -/
def format_time (dt_str : Option String) : String :=
  format_datetime dt_str "%H:%M:%S"

/-- C4: for every non-`None` risk score, the bucketing functions assign LOW
(green) iff the score is below 0.3, MEDIUM (orange) iff it is in [0.3, 0.6),
and HIGH (red) iff it is at least 0.6; in particular 0.2 is LOW, 0.45 is
MEDIUM, 0.75 is HIGH, and the boundaries give 0.3 ↦ MEDIUM and 0.6 ↦ HIGH. -/
theorem risk_bucketing (s : ℚ) :
    (risk_label s = "LOW" ↔ s < 3/10)
    ∧ (risk_label s = "MEDIUM" ↔ 3/10 ≤ s ∧ s < 6/10)
    ∧ (risk_label s = "HIGH" ↔ 6/10 ≤ s)
    ∧ (get_risk_color (some s) = "green" ↔ s < 3/10)
    ∧ (get_risk_color (some s) = "orange" ↔ 3/10 ≤ s ∧ s < 6/10)
    ∧ (get_risk_color (some s) = "red" ↔ 6/10 ≤ s)
    ∧ risk_label (2/10) = "LOW"
    ∧ risk_label (45/100) = "MEDIUM"
    ∧ risk_label (75/100) = "HIGH"
    ∧ risk_label (3/10) = "MEDIUM"
    ∧ risk_label (6/10) = "HIGH"
    ∧ get_risk_color (some (2/10)) = "green"
    ∧ get_risk_color (some (45/100)) = "orange"
    ∧ get_risk_color (some (75/100)) = "red" := by
  refine ⟨?_, ?_, ?_, ?_, ?_, ?_, ?_, ?_, ?_, ?_, ?_, ?_, ?_, ?_⟩
  · unfold risk_label
    split_ifs with h1 h2
    · simp [h1]
    · simp [h1]
    · simp [h1]
  · unfold risk_label
    split_ifs with h1 h2
    · simp [not_le.2 h1]
    · simp [not_lt.1 h1, h2]
    · simp [h2]
  · unfold risk_label
    split_ifs with h1 h2
    · simp [not_le.2 (lt_trans h1 (by norm_num : (3 : ℚ)/10 < 6/10))]
    · simp [not_le.2 h2]
    · simp [not_lt.1 h2]
  · simp only [get_risk_color]
    split_ifs with h1 h2
    · simp [h1]
    · simp [h1]
    · simp [h1]
  · simp only [get_risk_color]
    split_ifs with h1 h2
    · simp [not_le.2 h1]
    · simp [not_lt.1 h1, h2]
    · simp [h2]
  · simp only [get_risk_color]
    split_ifs with h1 h2
    · simp [not_le.2 (lt_trans h1 (by norm_num : (3 : ℚ)/10 < 6/10))]
    · simp [not_le.2 h2]
    · simp [not_lt.1 h2]
  · norm_num [risk_label]
  · norm_num [risk_label]
  · norm_num [risk_label]
  · norm_num [risk_label]
  · norm_num [risk_label]
  · norm_num [get_risk_color]
  · norm_num [get_risk_color]
  · norm_num [get_risk_color]

/-- C8: every optional-input formatting utility is total and returns the
`"N/A"` fallback (or the `info-badge` `N/A` span) when the input is `None`,
for every value of the remaining arguments. -/
theorem formatters_none_fallback (fmt : String) (d : Nat) (tt ft : String) :
    format_datetime none fmt = "N/A"
    ∧ format_percentage none d = "N/A"
    ∧ format_distance none = "N/A"
    ∧ format_risk_score none = "N/A"
    ∧ format_duration none = "N/A"
    ∧ format_number none d = "N/A"
    ∧ format_boolean none tt ft = "N/A"
    ∧ risk_badge none = "<span class=\"info-badge\">N/A</span>" :=
  ⟨rfl, rfl, rfl, rfl, rfl, rfl, rfl, rfl⟩

/-- C10: for every non-empty string the `fromisoformat` model rejects,
`format_datetime` (hence `format_date` and `format_time`) returns the input
unchanged; the `"N/A"` fallback arises only from `None` or the empty
string. -/
theorem format_datetime_unparseable_passthrough (s fmt : String)
    (hne : s ≠ "") (hp : parseISO (replaceZ s) = none) :
    format_datetime (some s) fmt = s
    ∧ format_date (some s) = s
    ∧ format_time (some s) = s
    ∧ format_datetime none fmt = "N/A"
    ∧ format_datetime (some "") fmt = "N/A" := by
  have key : ∀ f : String, format_datetime (some s) f = s := by
    intro f
    simp [format_datetime, hne, hp]
  exact ⟨key fmt, key "%Y-%m-%d", key "%H:%M:%S", rfl, rfl⟩

/-- Witness for C10 at the unparseable string `"not-a-date"`. -/
theorem format_datetime_unparseable_witness :
    format_datetime (some "not-a-date") "%Y-%m-%d %H:%M:%S" = "not-a-date"
    ∧ format_date (some "not-a-date") = "not-a-date"
    ∧ format_time (some "not-a-date") = "not-a-date"
    ∧ format_datetime none "%Y-%m-%d %H:%M:%S" = "N/A"
    ∧ format_datetime (some "") "%Y-%m-%d %H:%M:%S" = "N/A" :=
  format_datetime_unparseable_passthrough "not-a-date" "%Y-%m-%d %H:%M:%S"
    (by decide) (by decide)

/-!
## API client and login flow (`src/lib/api_client.py`, `src/app.py`)

An HTTP response is embedded as its status code, its body as parsed JSON
(`none` when `response.json()` raises), and its raw text. JSON bodies carry
exactly the fields the dashboard reads.
-/

/-- The `user` object of a login response; the dashboard reads its `role`. -/
structure UserJson where
  role : Option String
deriving DecidableEq, Repr

/-- A parsed JSON body, restricted to the fields the dashboard reads:
`detail` (error messages), `access_token` and `user` (login). -/
structure JsonBody where
  detail : Option String
  access_token : Option String
  user : Option UserJson
deriving DecidableEq, Repr

/-- An HTTP response: status code, parsed JSON body (`none` when
`response.json()` raises), and raw text. -/
structure HTTPResponse where
  status_code : Nat
  body : Option JsonBody
  text : String
deriving DecidableEq, Repr

/-- The `(success, data-or-message)` pair returned by `_handle_response`. -/
inductive ApiResult where
  | success (data : JsonBody)
  | failure (msg : String)
deriving DecidableEq, Repr

/-- The boolean component of the `(success, ...)` pair. -/
def ApiResult.isSuccess : ApiResult → Bool
  | .success _ => true
  | .failure _ => false

/-- Placeholder for Python's `str(e)` when `response.json()` raises on a
200/201 response (the exact exception text is opaque to this layer). -/
def jsonDecodeErrorText : String :=
  "Expecting value"

/-- `APIClient._handle_response` (`api_client.py` lines 38-65): 200/201 yield
the parsed body (or, when parsing raises, the outer handler's
`Request failed:` message); 401/403/404 yield fixed messages; any other code
yields the body's `detail` string, or a generic `Error {code}` message. -/
def handle_response (r : HTTPResponse) : ApiResult :=
  if r.status_code = 200 ∨ r.status_code = 201 then
    match r.body with
    | some j => ApiResult.success j
    | none => ApiResult.failure ("Request failed: " ++ jsonDecodeErrorText)
  else if r.status_code = 401 then
    ApiResult.failure "Authentication failed. Please login again."
  else if r.status_code = 403 then
    ApiResult.failure "Access denied. Insufficient permissions."
  else if r.status_code = 404 then
    ApiResult.failure "Resource not found."
  else
    match r.body with
    | some j => ApiResult.failure (j.detail.getD ("Error " ++ toString r.status_code))
    | none => ApiResult.failure ("Error " ++ toString r.status_code ++ ": " ++ r.text)

/-- The token state of an `APIClient` (`self.token`, `None` until a
successful login). -/
structure APIClient where
  token : Option String
deriving DecidableEq, Repr

/-- `APIClient.login` (lines 67-93) applied to the backend's response: on
success the client stores `result.get('access_token')`; on failure the client
is unchanged and the message is passed through. -/
def APIClient.login (c : APIClient) (r : HTTPResponse) : APIClient × ApiResult :=
  match handle_response r with
  | ApiResult.success j => (⟨j.access_token⟩, ApiResult.success j)
  | ApiResult.failure m => (c, ApiResult.failure m)

/-- `result.get('user', {})` of `app.py` line 101. -/
def jsonUser (j : JsonBody) : UserJson :=
  j.user.getD ⟨none⟩

/-- `user.get('role', '')` of `app.py` line 102. -/
def jsonRole (j : JsonBody) : String :=
  (jsonUser j).role.getD ""

/-- The dashboard's ambient session state (`st.session_state` in `app.py`
lines 70-78): `authenticated`, `api_client`, `user`, `token`. -/
structure DashState where
  authenticated : Bool
  api_client : Option APIClient
  user : Option UserJson
  token : Option String
deriving DecidableEq, Repr

/-- The initial session state (`app.py` lines 70-78). -/
def initState : DashState :=
  ⟨false, none, none, none⟩

/-- A submitted login form (`app.py` lines 96-119): a fresh `APIClient` logs
in; on success the role is checked and, only for `instructor`/`admin`, the
four session-state fields are set; otherwise the state is untouched. -/
def login_page_submit (s : DashState) (r : HTTPResponse) : DashState :=
  match APIClient.login ⟨none⟩ r with
  | (c, ApiResult.success j) =>
    if jsonRole j = "instructor" ∨ jsonRole j = "admin" then
      ⟨true, some c, some (jsonUser j), j.access_token⟩
    else s
  | (_, ApiResult.failure _) => s

/-- The Logout button (`app.py` lines 133-139): clears the four
session-state fields. -/
def logout_click (_s : DashState) : DashState :=
  ⟨false, none, none, none⟩

/-- The session states reachable from the initial state by login submissions
and logouts. -/
inductive Reachable : DashState → Prop where
  | init : Reachable initState
  | login_step (s : DashState) (r : HTTPResponse) :
      Reachable s → Reachable (login_page_submit s r)
  | logout_step (s : DashState) :
      Reachable s → Reachable (logout_click s)

/-- The stored user's role as the sidebar reads it
(`user.get('role', 'N/A')`-style access, with empty default). -/
def sessRole (s : DashState) : String :=
  (s.user.getD ⟨none⟩).role.getD ""

/-- Shared fact: a 401 response always yields the fixed re-login message. -/
theorem handle_response_of_401 (r : HTTPResponse) (h : r.status_code = 401) :
    handle_response r = ApiResult.failure "Authentication failed. Please login again." := by
  unfold handle_response
  rw [h]
  norm_num

/-- C5 counterexample: a 200 response whose body is not valid JSON is mapped
to failure, refuting "success if and only if the status code is 200 or
201". -/
theorem handle_response_200_badbody_counterexample :
    (HTTPResponse.mk 200 none "<html>").status_code = 200
    ∧ (handle_response (HTTPResponse.mk 200 none "<html>")).isSuccess = false := by
  decide

/-- C5 (amended): `_handle_response` succeeds with the parsed body iff the
status code is 200 or 201 and the body parses as JSON; 401, 403 and 404 yield
their fixed contextual messages; every other status code with a parsed body
carrying a `detail` string yields that string; and every response yields a
value (success or message), never an exception. -/
theorem handle_response_contract (r : HTTPResponse) :
    ((handle_response r).isSuccess = true
      ↔ ((r.status_code = 200 ∨ r.status_code = 201) ∧ r.body.isSome))
    ∧ (∀ j, (r.status_code = 200 ∨ r.status_code = 201) → r.body = some j →
        handle_response r = ApiResult.success j)
    ∧ (r.status_code = 401 →
        handle_response r = ApiResult.failure "Authentication failed. Please login again.")
    ∧ (r.status_code = 403 →
        handle_response r = ApiResult.failure "Access denied. Insufficient permissions.")
    ∧ (r.status_code = 404 →
        handle_response r = ApiResult.failure "Resource not found.")
    ∧ (∀ j d, ¬(r.status_code = 200 ∨ r.status_code = 201) →
        r.status_code ≠ 401 → r.status_code ≠ 403 → r.status_code ≠ 404 →
        r.body = some j → j.detail = some d →
        handle_response r = ApiResult.failure d)
    ∧ ((handle_response r).isSuccess = true ∨ ∃ m, handle_response r = ApiResult.failure m) := by
  refine ⟨?_, ?_, ?_, ?_, ?_, ?_, ?_⟩
  · unfold handle_response
    rcases hb : r.body with _ | j <;>
      split_ifs with h200 h401 h403 h404 <;>
      simp_all [ApiResult.isSuccess]
  · intro j h200 hb
    unfold handle_response
    rw [if_pos h200, hb]
  · intro h
    exact handle_response_of_401 r h
  · intro h
    unfold handle_response
    rw [h]
    norm_num
  · intro h
    unfold handle_response
    rw [h]
    norm_num
  · intro j d h200 h401 h403 h404 hb hd
    unfold handle_response
    rw [if_neg h200, if_neg h401, if_neg h403, if_neg h404, hb]
    simp [hd]
  · cases hres : handle_response r with
    | success j => exact Or.inl rfl
    | failure m => exact Or.inr ⟨m, rfl⟩

/-- Witness for C5 at a concrete 401 response. -/
theorem handle_response_contract_witness :
    handle_response (HTTPResponse.mk 401 none "") =
      ApiResult.failure "Authentication failed. Please login again." :=
  (handle_response_contract (HTTPResponse.mk 401 none "")).2.2.1 rfl

/-!
## Backend base URLs

`api_client.py` line 12 reads the `BACKEND_URL` environment variable with a
localhost default; `5_📥_Reports.py` line 13 and `6_➕_Manage.py` line 19
hard-code their own base URL constant.
-/

/-- `os.environ.get("BACKEND_URL", "http://localhost:8000")`
(`api_client.py` line 12), as a function of the environment entry. -/
def BACKEND_URL (env : Option String) : String :=
  env.getD "http://localhost:8000"

/-- `APIClient.__init__` (lines 17-26): `base_url or f"{BACKEND_URL}/api/v1"`
(`None` embeds the default argument). -/
def client_base_url (base_url : Option String) (env : Option String) : String :=
  base_url.getD (BACKEND_URL env ++ "/api/v1")

/-- A request URL built by any `APIClient` endpoint method:
`f"{self.base_url}{endpoint}"` for the default-constructed client. -/
def client_request_url (env : Option String) (endpoint : String) : String :=
  client_base_url none env ++ endpoint

/-- `API_BASE_URL` of `6_➕_Manage.py` line 19 (a hard-coded literal). -/
def manage_API_BASE_URL : String :=
  "http://localhost:8000/api/v1"

/-- `API_BASE_URL` of `5_📥_Reports.py` line 13 (a hard-coded literal). -/
def reports_API_BASE_URL : String :=
  "http://localhost:8000/api/v1"

/-- A request URL built by the Manage page helpers (`api_get`/`api_post`/
`api_patch`/`api_put`, lines 28-82): `f"{API_BASE_URL}{endpoint}"`. -/
def manage_request_url (endpoint : String) : String :=
  manage_API_BASE_URL ++ endpoint

/-- C6 counterexample: with `BACKEND_URL` set to a non-default address, the
Manage page's request URL is not the environment-configured base followed by
`/api/v1`, refuting "no call site bypasses the environment-configured base
URL". -/
theorem manage_url_bypasses_env_counterexample :
    manage_request_url "/sessions/"
      ≠ BACKEND_URL (some "http://backend.internal:9000") ++ "/api/v1" ++ "/sessions/" := by
  decide

/-- C6 (amended): requests made through `APIClient` use the base URL from the
`BACKEND_URL` environment variable (default `http://localhost:8000`) followed
by the fixed `/api/v1` prefix, but the Manage and Reports pages hard-code
`http://localhost:8000/api/v1`, which coincides with the client's base only
when the environment variable is unset (or set to the default). -/
theorem backend_url_configuration (env : Option String) (endpoint e2 : String) :
    client_request_url env endpoint = (BACKEND_URL env ++ "/api/v1") ++ endpoint
    ∧ BACKEND_URL none = "http://localhost:8000"
    ∧ manage_API_BASE_URL = BACKEND_URL none ++ "/api/v1"
    ∧ reports_API_BASE_URL = BACKEND_URL none ++ "/api/v1"
    ∧ manage_request_url e2 = manage_API_BASE_URL ++ e2
    ∧ client_base_url none none = manage_API_BASE_URL := by
  refine ⟨rfl, rfl, by decide, by decide, rfl, by decide⟩

/-- C7: when the backend login call returns 401, `APIClient.login` fails with
the re-login message and leaves the client's token unchanged, and the
dashboard's session state is not modified by the failed attempt. -/
theorem login_401_no_state_change (c : APIClient) (s : DashState) (r : HTTPResponse)
    (h : r.status_code = 401) :
    APIClient.login c r = (c, ApiResult.failure "Authentication failed. Please login again.")
    ∧ login_page_submit s r = s := by
  have hr := handle_response_of_401 r h
  constructor
  · unfold APIClient.login
    rw [hr]
  · unfold login_page_submit APIClient.login
    rw [hr]

/-- Witness for C7 at a concrete 401 response, a fresh client and the initial
session state. -/
theorem login_401_no_state_change_witness :
    APIClient.login (APIClient.mk none) (HTTPResponse.mk 401 none "")
      = (APIClient.mk none, ApiResult.failure "Authentication failed. Please login again.")
    ∧ login_page_submit initState (HTTPResponse.mk 401 none "") = initState :=
  login_401_no_state_change (APIClient.mk none) initState (HTTPResponse.mk 401 none "") rfl

/-- A concrete successful login response whose user has the `instructor`
role. -/
def instructorLoginResponse : HTTPResponse :=
  HTTPResponse.mk 200 (some (JsonBody.mk none (some "tok123") (some (UserJson.mk (some "instructor"))))) ""

/-- Shared case analysis of a login submission: either the state is unchanged,
or the response succeeded with an `instructor`/`admin` role and all four
session-state fields are set. -/
theorem login_page_submit_cases (s : DashState) (r : HTTPResponse) :
    login_page_submit s r = s
    ∨ ∃ j, handle_response r = ApiResult.success j
        ∧ (jsonRole j = "instructor" ∨ jsonRole j = "admin")
        ∧ login_page_submit s r
            = DashState.mk true (some (APIClient.mk j.access_token)) (some (jsonUser j))
                j.access_token := by
  unfold login_page_submit APIClient.login
  cases hres : handle_response r with
  | failure m => exact Or.inl rfl
  | success jj =>
    by_cases hrole : jsonRole jj = "instructor" ∨ jsonRole jj = "admin"
    · exact Or.inr ⟨jj, rfl, hrole, if_pos hrole⟩
    · exact Or.inl (if_neg hrole)

/-- C9: in every reachable session state, `authenticated = true` implies the
stored user's role is `instructor` or `admin`; a successful backend login with
any other role leaves the session state untouched (no token or client is
stored); and logout restores the unauthenticated initial state. -/
theorem auth_role_invariant (s t : DashState) (r : HTTPResponse) (j : JsonBody)
    (hreach : Reachable s) :
    (s.authenticated = true → sessRole s = "instructor" ∨ sessRole s = "admin")
    ∧ (handle_response r = ApiResult.success j →
        jsonRole j ≠ "instructor" → jsonRole j ≠ "admin" →
        login_page_submit t r = t)
    ∧ logout_click t = initState
    ∧ (logout_click t).authenticated = false := by
  refine ⟨?_, ?_, rfl, rfl⟩
  · induction hreach with
    | init =>
      intro h
      exact absurd h (by decide)
    | login_step s' r' _hr ih =>
      intro hauth
      rcases login_page_submit_cases s' r' with heq | ⟨jj, _hres, hrole, heq⟩
      · rw [heq] at hauth ⊢
        exact ih hauth
      · rw [heq]
        simpa [sessRole, jsonRole] using hrole
    | logout_step s' _hr _ih =>
      intro h
      simp [logout_click] at h
  · intro hs hro1 hro2
    rcases login_page_submit_cases t r with heq | ⟨jj, hres, hrole, _heq⟩
    · exact heq
    · rw [hs] at hres
      cases hres
      rcases hrole with hrole | hrole
      · exact absurd hrole hro1
      · exact absurd hrole hro2

/-- Witness for C9: after a successful instructor login from the initial
state, the stored role is `instructor` or `admin`. -/
theorem auth_role_invariant_witness :
    sessRole (login_page_submit initState instructorLoginResponse) = "instructor"
    ∨ sessRole (login_page_submit initState instructorLoginResponse) = "admin" :=
  (auth_role_invariant (login_page_submit initState instructorLoginResponse) initState
      instructorLoginResponse (JsonBody.mk none none none)
      (Reachable.login_step initState instructorLoginResponse Reachable.init)).1
    (by decide)
